import Mathlib

/-!
Verification of the LUMINAOPTIX optics solver (src/app.py) against its
natural-language specification.

Shallow embedding conventions:
  - Python floats are modelled as real numbers; the 1e-6 tolerances in the
    spec absorb the float/real gap.
  - Fallible Python arithmetic is modelled with Except String: a float
    division by zero raises ZeroDivisionError, modelled by pyDiv, and
    math.asin outside [-1, 1] raises ValueError, modelled by pyAsin.
  - Formatted strings whose only varying content is numeric (step lines,
    answers, animation payloads) are modelled as variant types carrying the
    numeric payloads; rendering a number to 6 decimal places is modelled by
    roundTo6.  Constant strings are kept as Lean strings.
  - A missing JSON key / Python None is modelled as Option.none.
-/

namespace LuminaOptix

/-- Degrees-to-radians conversion, modelling math.radians. -/
noncomputable def radians (d : ℝ) : ℝ := d * Real.pi / 180

/-- Radians-to-degrees conversion, modelling math.degrees. -/
noncomputable def degrees (r : ℝ) : ℝ := r * 180 / Real.pi

/-- Python float division: raises ZeroDivisionError when the divisor is 0. -/
noncomputable def pyDiv (a b : ℝ) : Except String ℝ :=
  if b = 0 then Except.error "float division by zero" else Except.ok (a / b)

/-- Python math.asin: raises ValueError outside the domain [-1, 1]. -/
noncomputable def pyAsin (x : ℝ) : Except String ℝ :=
  if |x| ≤ 1 then Except.ok (Real.arcsin x) else Except.error "math domain error"

/-- Rendering a real to 6 decimal places, modelling the Python format
specifier .6f as exact decimal rounding. -/
noncomputable def roundTo6 (x : ℝ) : ℝ := (round (x * 1000000) : ℤ) / 1000000

/-- The derivation lines emitted by the solvers.  Each constructor stands for
one f-string template of the source, carrying the numbers interpolated into
it; constant text of the template is implicit in the constructor. -/
inductive Step where
  /-- Step 1 of calculate_snell: formula substitution with n1, n2, theta1. -/
  | snell1 (n1 n2 theta1 : ℝ) : Step
  /-- Step 2 of calculate_snell: the ratio, sin of theta1, and sin of theta2. -/
  | snell2 (r sinTheta1 sinTheta2 : ℝ) : Step
  /-- Step 3 of the TIR branch: absolute sin of theta2 exceeds 1. -/
  | tir3 (absSinTheta2 : ℝ) : Step
  /-- Step 4 of the TIR branch: the critical-angle substitution. -/
  | tir4 (n2 n1 criticalAngle : ℝ) : Step
  /-- Step 3 of the normal-refraction branch. -/
  | refract3 (sinTheta2 theta2 : ℝ) : Step
  /-- Lens step 1: symbolic substitution for the missing variable. -/
  | lens1 (find : String) (a b : ℝ) : Step
  /-- Lens step 2: numeric evaluation of the two reciprocals and their
  combination. -/
  | lens2 (find : String) (ra rb c : ℝ) : Step
  /-- Lens step 3: the final division. -/
  | lens3 (find : String) (denom value : ℝ) : Step
  /-- The single error line of the insufficient-data path. -/
  | errorProvideTwo : Step
  /-- The guidance line of the unrecognized-problem record. -/
  | tryRephrase : Step

/-- The Formula field of a record; each constructor stands for one constant
formula string of the source. -/
inductive Formula where
  /-- The Snell law string with its name, used by the normal branch. -/
  | snellLaw : Formula
  /-- The bare Snell equation string, used by the TIR branch. -/
  | snellBare : Formula
  /-- The thin-lens equation string with its name, used on lens success. -/
  | thinLens : Formula
  /-- The bare thin-lens equation string, used on insufficient data. -/
  | thinLensBare : Formula
  /-- The keyword-guidance string of the unrecognized-problem record. -/
  | guidance : Formula

/-- The Given field.  Snell records render the three inputs; lens records
render each of the three optional values through Python truthiness, where a
falsy value (absent, or equal to 0) displays as a question mark, modelled by
Option.none in each slot. -/
inductive Given where
  | snell (n1 n2 theta1 : ℝ) : Given
  | lensTriple (f d_o di : Option ℝ) : Given
  | text (s : String) : Given

/-- The Answer field; each constructor stands for one answer template of the
source with its numeric payload. -/
inductive Answer where
  /-- Normal refraction: the answer line with theta2 to 6 decimals.  This is
  the only answer template containing the theta2 symbol. -/
  | theta2Deg (theta2 : ℝ) : Answer
  /-- Total internal reflection: the two-line answer with the critical angle
  to 6 decimals. -/
  | tir (criticalAngle : ℝ) : Answer
  /-- Lens success: the solved variable name and its value to 6 decimals. -/
  | lensSolved (find : String) (value : ℝ) : Answer
  /-- The insufficient-data answer string. -/
  | insufficient : Answer
  /-- The unrecognized-problem answer string. -/
  | unrecognized : Answer

/-- The animation payload: a tagged variant, one constructor per type tag. -/
inductive Animation where
  | tir (n1 n2 theta1 criticalAngle : ℝ) : Animation
  | refraction (n1 n2 theta1 theta2 : ℝ) : Animation
  | lens (f d_o di : ℝ) : Animation

/-- The structured solution record returned by both solvers.  animationData
is Option-valued: records built without the key carry none. -/
structure SolutionRecord where
  detected : String
  given : Given
  formula : Formula
  steps : List Step
  answer : Answer
  animationData : Option Animation

/-- Python truthiness applied to an optional displayed value: None and 0 are
falsy and display as the question-mark placeholder (modelled none). -/
noncomputable def dispOpt (x : Option ℝ) : Option ℝ :=
  match x with
  | none => none
  | some v => if v = 0 then none else some v

/-- The Snell solver, modelling calculate_snell of src/app.py line by line. -/
noncomputable def calculate_snell (n1 n2 theta1 : ℝ) : Except String SolutionRecord :=
  let theta1_rad := radians theta1
  let sin_theta1 := Real.sin theta1_rad
  Except.bind (pyDiv n1 n2) fun r =>
    let sin_theta2 := r * sin_theta1
    let steps := [Step.snell1 n1 n2 theta1, Step.snell2 r sin_theta1 sin_theta2]
    if 1 < |sin_theta2| then
      Except.bind (pyDiv n2 n1) fun q =>
      Except.bind (pyAsin q) fun a =>
        let critical_angle := degrees a
        Except.ok
          { detected := "Refraction Problem - Total Internal Reflection",
            given := Given.snell n1 n2 theta1,
            formula := Formula.snellBare,
            steps := steps ++ [Step.tir3 |sin_theta2|, Step.tir4 n2 n1 critical_angle],
            answer := Answer.tir critical_angle,
            animationData := some (Animation.tir n1 n2 theta1 critical_angle) }
    else
      Except.bind (pyAsin sin_theta2) fun a =>
        let theta2 := degrees a
        Except.ok
          { detected := "Refraction Problem",
            given := Given.snell n1 n2 theta1,
            formula := Formula.snellLaw,
            steps := steps ++ [Step.refract3 sin_theta2 theta2],
            answer := Answer.theta2Deg theta2,
            animationData := some (Animation.refraction n1 n2 theta1 theta2) }

/-- The count of provided (non-None) values among f, do, di. -/
def providedCount (f d_o di : Option ℝ) : ℕ :=
  List.countP (fun v => Option.isSome v) [f, d_o, di]

/-- The lens solver, modelling calculate_lens of src/app.py.  The final
unreachable arm models the TypeError Python would raise when formatting
None with the .6f specifier. -/
noncomputable def calculate_lens (f d_o di : Option ℝ) : Except String SolutionRecord :=
  if providedCount f d_o di ≠ 2 then
    Except.ok
      { detected := "Lens Problem",
        given := Given.lensTriple (dispOpt f) (dispOpt d_o) (dispOpt di),
        formula := Formula.thinLensBare,
        steps := [Step.errorProvideTwo],
        answer := Answer.insufficient,
        animationData := none }
  else
    match f, d_o, di with
    | some fv, some dov, none =>
      Except.bind (pyDiv 1 fv) fun rf =>
      Except.bind (pyDiv 1 dov) fun rdo =>
      Except.bind (pyDiv 1 (rf - rdo)) fun di_calc =>
        Except.ok
          { detected := "Lens Problem",
            given := Given.lensTriple (dispOpt (some fv)) (dispOpt (some dov)) (dispOpt none),
            formula := Formula.thinLens,
            steps := [Step.lens1 "di" fv dov, Step.lens2 "di" rf rdo (rf - rdo),
                      Step.lens3 "di" (rf - rdo) di_calc],
            answer := Answer.lensSolved "di" di_calc,
            animationData := some (Animation.lens fv dov di_calc) }
    | some fv, none, some dv =>
      Except.bind (pyDiv 1 fv) fun rf =>
      Except.bind (pyDiv 1 dv) fun rdi =>
      Except.bind (pyDiv 1 (rf - rdi)) fun do_calc =>
        Except.ok
          { detected := "Lens Problem",
            given := Given.lensTriple (dispOpt (some fv)) (dispOpt none) (dispOpt (some dv)),
            formula := Formula.thinLens,
            steps := [Step.lens1 "do" fv dv, Step.lens2 "do" rf rdi (rf - rdi),
                      Step.lens3 "do" (rf - rdi) do_calc],
            answer := Answer.lensSolved "do" do_calc,
            animationData := some (Animation.lens fv do_calc dv) }
    | none, some dov, some dv =>
      Except.bind (pyDiv 1 dov) fun rdo =>
      Except.bind (pyDiv 1 dv) fun rdi =>
      Except.bind (pyDiv 1 (rdo + rdi)) fun f_calc =>
        Except.ok
          { detected := "Lens Problem",
            given := Given.lensTriple (dispOpt none) (dispOpt (some dov)) (dispOpt (some dv)),
            formula := Formula.thinLens,
            steps := [Step.lens1 "f" dov dv, Step.lens2 "f" rdo rdi (rdo + rdi),
                      Step.lens3 "f" (rdo + rdi) f_calc],
            answer := Answer.lensSolved "f" f_calc,
            animationData := some (Animation.lens f_calc dov dv) }
    | _, _, _ => Except.error "unsupported format string passed to NoneType"

lemma pyDiv_ok {b : ℝ} (a : ℝ) (h : b ≠ 0) : pyDiv a b = Except.ok (a / b) := by
  simp [pyDiv, h]

lemma pyAsin_ok {x : ℝ} (h : |x| ≤ 1) : pyAsin x = Except.ok (Real.arcsin x) := by
  simp [pyAsin, h]

lemma radians_degrees (x : ℝ) : radians (degrees x) = x := by
  unfold radians degrees
  field_simp

/-- With a non-zero n2 and an in-range sine ratio, calculate_snell takes the
normal-refraction branch and returns exactly this record. -/
lemma calculate_snell_refraction (n1 n2 theta1 : ℝ) (hn2 : n2 ≠ 0)
    (hle : |n1 / n2 * Real.sin (radians theta1)| ≤ 1) :
    calculate_snell n1 n2 theta1 = Except.ok
      { detected := "Refraction Problem",
        given := Given.snell n1 n2 theta1,
        formula := Formula.snellLaw,
        steps := [Step.snell1 n1 n2 theta1,
                  Step.snell2 (n1 / n2) (Real.sin (radians theta1))
                    (n1 / n2 * Real.sin (radians theta1)),
                  Step.refract3 (n1 / n2 * Real.sin (radians theta1))
                    (degrees (Real.arcsin (n1 / n2 * Real.sin (radians theta1))))],
        answer := Answer.theta2Deg
          (degrees (Real.arcsin (n1 / n2 * Real.sin (radians theta1)))),
        animationData := some (Animation.refraction n1 n2 theta1
          (degrees (Real.arcsin (n1 / n2 * Real.sin (radians theta1))))) } := by
  unfold calculate_snell
  rw [pyDiv_ok n1 hn2]
  simp only [Except.bind]
  rw [if_neg (not_lt.mpr hle), pyAsin_ok hle]
  simp only [Except.bind, List.cons_append, List.nil_append]

/-- Under the TIR branch condition the ratio n2/n1 lies strictly inside the
unit interval. -/
lemma tir_ratio_lt_one {n1 n2 theta1 : ℝ} (hn1 : n1 ≠ 0) (hn2 : n2 ≠ 0)
    (htir : 1 < |n1 / n2 * Real.sin (radians theta1)|) : |n2 / n1| < 1 := by
  have hs : |Real.sin (radians theta1)| ≤ 1 := Real.abs_sin_le_one _
  have h1 : 1 < |n1 / n2| := by
    have hle : |n1 / n2 * Real.sin (radians theta1)| ≤ |n1 / n2| := by
      rw [abs_mul]
      calc |n1 / n2| * |Real.sin (radians theta1)| ≤ |n1 / n2| * 1 := by
            exact mul_le_mul_of_nonneg_left hs (abs_nonneg _)
        _ = |n1 / n2| := mul_one _
    exact lt_of_lt_of_le htir hle
  have hn1' : 0 < |n1| := abs_pos.mpr hn1
  have hn2' : 0 < |n2| := abs_pos.mpr hn2
  rw [abs_div] at h1 ⊢
  rw [lt_div_iff₀ hn2', one_mul] at h1
  rw [div_lt_one hn1']
  exact h1

/-- With non-zero indices and an out-of-range sine ratio, calculate_snell
takes the TIR branch and returns exactly this record. -/
lemma calculate_snell_tir (n1 n2 theta1 : ℝ) (hn1 : n1 ≠ 0) (hn2 : n2 ≠ 0)
    (htir : 1 < |n1 / n2 * Real.sin (radians theta1)|) :
    calculate_snell n1 n2 theta1 = Except.ok
      { detected := "Refraction Problem - Total Internal Reflection",
        given := Given.snell n1 n2 theta1,
        formula := Formula.snellBare,
        steps := [Step.snell1 n1 n2 theta1,
                  Step.snell2 (n1 / n2) (Real.sin (radians theta1))
                    (n1 / n2 * Real.sin (radians theta1)),
                  Step.tir3 |n1 / n2 * Real.sin (radians theta1)|,
                  Step.tir4 n2 n1 (degrees (Real.arcsin (n2 / n1)))],
        answer := Answer.tir (degrees (Real.arcsin (n2 / n1))),
        animationData := some (Animation.tir n1 n2 theta1
          (degrees (Real.arcsin (n2 / n1)))) } := by
  have hratio : |n2 / n1| ≤ 1 := le_of_lt (tir_ratio_lt_one hn1 hn2 htir)
  unfold calculate_snell
  rw [pyDiv_ok n1 hn2]
  simp only [Except.bind]
  rw [if_pos htir, pyDiv_ok n2 hn1]
  simp only [Except.bind]
  rw [pyAsin_ok hratio]
  simp only [Except.bind, List.cons_append, List.nil_append]

lemma dispOpt_none : dispOpt none = none := rfl

lemma dispOpt_some_of_ne {v : ℝ} (h : v ≠ 0) : dispOpt (some v) = some v := by
  simp [dispOpt, h]

lemma dispOpt_some_zero : dispOpt (some 0) = none := by
  simp [dispOpt]

/-- Solving for di with non-zero givens and a non-zero denominator returns
exactly this record. -/
lemma calculate_lens_di (fv dov : ℝ) (hf : fv ≠ 0) (hdo : dov ≠ 0)
    (hden : 1 / fv - 1 / dov ≠ 0) :
    calculate_lens (some fv) (some dov) none = Except.ok
      { detected := "Lens Problem",
        given := Given.lensTriple (some fv) (some dov) none,
        formula := Formula.thinLens,
        steps := [Step.lens1 "di" fv dov,
                  Step.lens2 "di" (1 / fv) (1 / dov) (1 / fv - 1 / dov),
                  Step.lens3 "di" (1 / fv - 1 / dov) (1 / (1 / fv - 1 / dov))],
        answer := Answer.lensSolved "di" (1 / (1 / fv - 1 / dov)),
        animationData := some (Animation.lens fv dov (1 / (1 / fv - 1 / dov))) } := by
  have hcount : providedCount (some fv) (some dov) none = 2 := rfl
  unfold calculate_lens
  rw [if_neg (by rw [hcount]; exact fun h => h rfl)]
  simp only [pyDiv_ok 1 hf, pyDiv_ok 1 hdo, pyDiv_ok 1 hden, Except.bind,
    dispOpt_some_of_ne hf, dispOpt_some_of_ne hdo, dispOpt_none]

/-- Solving for do with non-zero givens and a non-zero denominator returns
exactly this record. -/
lemma calculate_lens_do (fv dv : ℝ) (hf : fv ≠ 0) (hdi : dv ≠ 0)
    (hden : 1 / fv - 1 / dv ≠ 0) :
    calculate_lens (some fv) none (some dv) = Except.ok
      { detected := "Lens Problem",
        given := Given.lensTriple (some fv) none (some dv),
        formula := Formula.thinLens,
        steps := [Step.lens1 "do" fv dv,
                  Step.lens2 "do" (1 / fv) (1 / dv) (1 / fv - 1 / dv),
                  Step.lens3 "do" (1 / fv - 1 / dv) (1 / (1 / fv - 1 / dv))],
        answer := Answer.lensSolved "do" (1 / (1 / fv - 1 / dv)),
        animationData := some (Animation.lens fv (1 / (1 / fv - 1 / dv)) dv) } := by
  have hcount : providedCount (some fv) none (some dv) = 2 := rfl
  unfold calculate_lens
  rw [if_neg (by rw [hcount]; exact fun h => h rfl)]
  simp only [pyDiv_ok 1 hf, pyDiv_ok 1 hdi, pyDiv_ok 1 hden, Except.bind,
    dispOpt_some_of_ne hf, dispOpt_some_of_ne hdi, dispOpt_none]

/-- Solving for f with non-zero givens and a non-zero denominator returns
exactly this record. -/
lemma calculate_lens_f (dov dv : ℝ) (hdo : dov ≠ 0) (hdi : dv ≠ 0)
    (hden : 1 / dov + 1 / dv ≠ 0) :
    calculate_lens none (some dov) (some dv) = Except.ok
      { detected := "Lens Problem",
        given := Given.lensTriple none (some dov) (some dv),
        formula := Formula.thinLens,
        steps := [Step.lens1 "f" dov dv,
                  Step.lens2 "f" (1 / dov) (1 / dv) (1 / dov + 1 / dv),
                  Step.lens3 "f" (1 / dov + 1 / dv) (1 / (1 / dov + 1 / dv))],
        answer := Answer.lensSolved "f" (1 / (1 / dov + 1 / dv)),
        animationData := some (Animation.lens (1 / (1 / dov + 1 / dv)) dov dv) } := by
  have hcount : providedCount none (some dov) (some dv) = 2 := rfl
  unfold calculate_lens
  rw [if_neg (by rw [hcount]; exact fun h => h rfl)]
  simp only [pyDiv_ok 1 hdo, pyDiv_ok 1 hdi, pyDiv_ok 1 hden, Except.bind,
    dispOpt_some_of_ne hdo, dispOpt_some_of_ne hdi, dispOpt_none]

/-- Claim C1: for non-zero n1, n2 and any theta1 with
|(n1/n2) * sin(radians theta1)| at most 1, calculate_snell returns the
normal-refraction record whose theta2 is degrees(asin((n1/n2) *
sin(radians theta1))), so that n1*sin(theta1) = n2*sin(theta2) within 1e-6,
with the theta2 answer line and the refraction animation payload. -/
theorem c1_snell_normal_refraction (n1 n2 theta1 : ℝ) (hn1 : n1 ≠ 0) (hn2 : n2 ≠ 0)
    (hle : |n1 / n2 * Real.sin (radians theta1)| ≤ 1) :
    ∃ rec, calculate_snell n1 n2 theta1 = Except.ok rec ∧
      rec.detected = "Refraction Problem" ∧
      rec.answer = Answer.theta2Deg
        (degrees (Real.arcsin (n1 / n2 * Real.sin (radians theta1)))) ∧
      rec.animationData = some (Animation.refraction n1 n2 theta1
        (degrees (Real.arcsin (n1 / n2 * Real.sin (radians theta1))))) ∧
      |n1 * Real.sin (radians theta1) - n2 * Real.sin (radians (degrees
        (Real.arcsin (n1 / n2 * Real.sin (radians theta1)))))| ≤ 1 / 1000000 := by
  refine ⟨_, calculate_snell_refraction n1 n2 theta1 hn2 hle, rfl, rfl, rfl, ?_⟩
  rw [radians_degrees, Real.sin_arcsin (abs_le.mp hle).1 (abs_le.mp hle).2]
  have h0 : n2 * (n1 / n2 * Real.sin (radians theta1)) = n1 * Real.sin (radians theta1) := by
    field_simp
  rw [h0, sub_self, abs_zero]
  norm_num

/-- Witness for C1 at n1 = 1, n2 = 2, theta1 = 0. -/
theorem c1_witness :
    ((1:ℝ) ≠ 0) ∧ ((2:ℝ) ≠ 0) ∧ |(1:ℝ) / 2 * Real.sin (radians 0)| ≤ 1 ∧
    (∃ rec, calculate_snell 1 2 0 = Except.ok rec ∧
      rec.detected = "Refraction Problem" ∧
      rec.answer = Answer.theta2Deg
        (degrees (Real.arcsin ((1:ℝ) / 2 * Real.sin (radians 0)))) ∧
      rec.animationData = some (Animation.refraction 1 2 0
        (degrees (Real.arcsin ((1:ℝ) / 2 * Real.sin (radians 0))))) ∧
      |1 * Real.sin (radians 0) - 2 * Real.sin (radians (degrees
        (Real.arcsin ((1:ℝ) / 2 * Real.sin (radians 0)))))| ≤ 1 / 1000000) := by
  have h1 : (1:ℝ) ≠ 0 := one_ne_zero
  have h2 : (2:ℝ) ≠ 0 := two_ne_zero
  have h3 : |(1:ℝ) / 2 * Real.sin (radians 0)| ≤ 1 := by
    simp [radians]
  exact ⟨h1, h2, h3, c1_snell_normal_refraction 1 2 0 h1 h2 h3⟩

/-- Claim C2: for non-zero n1, n2 and theta1 with |(n1/n2) *
sin(radians theta1)| above 1, calculate_snell returns the
total-internal-reflection record whose critical angle is
degrees(asin(n2/n1)), so that sin(criticalAngle) = n2/n1 within 1e-6, with
the tir animation payload. -/
theorem c2_snell_total_internal_reflection (n1 n2 theta1 : ℝ)
    (hn1 : n1 ≠ 0) (hn2 : n2 ≠ 0)
    (htir : 1 < |n1 / n2 * Real.sin (radians theta1)|) :
    ∃ rec, calculate_snell n1 n2 theta1 = Except.ok rec ∧
      rec.detected = "Refraction Problem - Total Internal Reflection" ∧
      rec.answer = Answer.tir (degrees (Real.arcsin (n2 / n1))) ∧
      rec.animationData = some (Animation.tir n1 n2 theta1
        (degrees (Real.arcsin (n2 / n1)))) ∧
      |Real.sin (radians (degrees (Real.arcsin (n2 / n1)))) - n2 / n1| ≤ 1 / 1000000 := by
  refine ⟨_, calculate_snell_tir n1 n2 theta1 hn1 hn2 htir, rfl, rfl, rfl, ?_⟩
  have hratio : |n2 / n1| ≤ 1 := le_of_lt (tir_ratio_lt_one hn1 hn2 htir)
  rw [radians_degrees, Real.sin_arcsin (abs_le.mp hratio).1 (abs_le.mp hratio).2,
    sub_self, abs_zero]
  norm_num

/-- Witness for C2 at n1 = 2, n2 = 1, theta1 = 90. -/
theorem c2_witness :
    ((2:ℝ) ≠ 0) ∧ ((1:ℝ) ≠ 0) ∧ 1 < |(2:ℝ) / 1 * Real.sin (radians 90)| ∧
    (∃ rec, calculate_snell 2 1 90 = Except.ok rec ∧
      rec.detected = "Refraction Problem - Total Internal Reflection" ∧
      rec.answer = Answer.tir (degrees (Real.arcsin ((1:ℝ) / 2))) ∧
      rec.animationData = some (Animation.tir 2 1 90
        (degrees (Real.arcsin ((1:ℝ) / 2)))) ∧
      |Real.sin (radians (degrees (Real.arcsin ((1:ℝ) / 2)))) - 1 / 2| ≤ 1 / 1000000) := by
  have h1 : (2:ℝ) ≠ 0 := two_ne_zero
  have h2 : (1:ℝ) ≠ 0 := one_ne_zero
  have hrad : radians 90 = Real.pi / 2 := by
    unfold radians; ring
  have h3 : 1 < |(2:ℝ) / 1 * Real.sin (radians 90)| := by
    rw [hrad, Real.sin_pi_div_two]
    norm_num
  exact ⟨h1, h2, h3, c2_snell_total_internal_reflection 2 1 90 h1 h2 h3⟩

/-- Claim C10: whenever calculate_snell takes the TIR branch with non-zero
indices, |n2/n1| is strictly below 1, so the critical-angle arcsine is in
domain and the branch completes without a fault. -/
theorem c10_tir_branch_total (n1 n2 theta1 : ℝ) (hn1 : n1 ≠ 0) (hn2 : n2 ≠ 0)
    (htir : 1 < |n1 / n2 * Real.sin (radians theta1)|) :
    |n2 / n1| < 1 ∧
    ∃ rec, calculate_snell n1 n2 theta1 = Except.ok rec ∧
      rec.detected = "Refraction Problem - Total Internal Reflection" := by
  exact ⟨tir_ratio_lt_one hn1 hn2 htir,
    ⟨_, calculate_snell_tir n1 n2 theta1 hn1 hn2 htir, rfl⟩⟩

/-- Witness for C10 at n1 = 3, n2 = 1, theta1 = 90. -/
theorem c10_witness :
    ((3:ℝ) ≠ 0) ∧ ((1:ℝ) ≠ 0) ∧ 1 < |(3:ℝ) / 1 * Real.sin (radians 90)| ∧
    (|(1:ℝ) / 3| < 1 ∧
     ∃ rec, calculate_snell 3 1 90 = Except.ok rec ∧
       rec.detected = "Refraction Problem - Total Internal Reflection") := by
  have h1 : (3:ℝ) ≠ 0 := three_ne_zero
  have h2 : (1:ℝ) ≠ 0 := one_ne_zero
  have hrad : radians 90 = Real.pi / 2 := by
    unfold radians; ring
  have h3 : 1 < |(3:ℝ) / 1 * Real.sin (radians 90)| := by
    rw [hrad, Real.sin_pi_div_two]
    norm_num
  exact ⟨h1, h2, h3, c10_tir_branch_total 3 1 90 h1 h2 h3⟩

/-- Every value present among the optional lens arguments is non-zero. -/
def providedNonzero (x : Option ℝ) : Prop := ∀ v, x = some v → v ≠ 0

/-- The denominator of the final division performed by the branch that a
two-of-three shape selects; 0 on shapes that select no branch. -/
noncomputable def lensDenom (f d_o di : Option ℝ) : ℝ :=
  match f, d_o, di with
  | some fv, some dov, none => 1 / fv - 1 / dov
  | some fv, none, some dv => 1 / fv - 1 / dv
  | none, some dov, some dv => 1 / dov + 1 / dv
  | _, _, _ => 0

lemma pyDiv_err (a : ℝ) {b : ℝ} (h : b = 0) :
    pyDiv a b = Except.error "float division by zero" := by
  simp [pyDiv, h]

/-- Claim C3: with exactly two of the three lens values provided, all
provided values non-zero and the branch denominator non-zero, the resolved
triple in the animation payload satisfies the thin-lens equation within
1e-6. -/
theorem c3_thin_lens_identity (f d_o di : Option ℝ)
    (h2 : providedCount f d_o di = 2)
    (hf : providedNonzero f) (hdo : providedNonzero d_o) (hdi : providedNonzero di)
    (hden : lensDenom f d_o di ≠ 0) :
    ∃ rec fv dov dv, calculate_lens f d_o di = Except.ok rec ∧
      rec.animationData = some (Animation.lens fv dov dv) ∧
      |1 / fv - (1 / dov + 1 / dv)| ≤ 1 / 1000000 := by
  rcases f with _ | fv <;> rcases d_o with _ | dov <;> rcases di with _ | dv
  · simp [providedCount, List.countP_cons, List.countP_nil] at h2
  · simp [providedCount, List.countP_cons, List.countP_nil] at h2
  · simp [providedCount, List.countP_cons, List.countP_nil] at h2
  · -- f missing: solve for f
    have hdov : dov ≠ 0 := hdo dov rfl
    have hdv : dv ≠ 0 := hdi dv rfl
    rw [show lensDenom none (some dov) (some dv) = 1 / dov + 1 / dv from rfl] at hden
    refine ⟨_, 1 / (1 / dov + 1 / dv), dov, dv,
      calculate_lens_f dov dv hdov hdv hden, rfl, ?_⟩
    rw [one_div_one_div]
    have h0 : 1 / dov + 1 / dv - (1 / dov + 1 / dv) = 0 := by ring
    rw [h0, abs_zero]
    norm_num
  · simp [providedCount, List.countP_cons, List.countP_nil] at h2
  · -- do missing: solve for do
    have hfv : fv ≠ 0 := hf fv rfl
    have hdv : dv ≠ 0 := hdi dv rfl
    rw [show lensDenom (some fv) none (some dv) = 1 / fv - 1 / dv from rfl] at hden
    refine ⟨_, fv, 1 / (1 / fv - 1 / dv), dv,
      calculate_lens_do fv dv hfv hdv hden, rfl, ?_⟩
    rw [one_div_one_div]
    have h0 : 1 / fv - (1 / fv - 1 / dv + 1 / dv) = 0 := by ring
    rw [h0, abs_zero]
    norm_num
  · -- di missing: solve for di
    have hfv : fv ≠ 0 := hf fv rfl
    have hdov : dov ≠ 0 := hdo dov rfl
    rw [show lensDenom (some fv) (some dov) none = 1 / fv - 1 / dov from rfl] at hden
    refine ⟨_, fv, dov, 1 / (1 / fv - 1 / dov),
      calculate_lens_di fv dov hfv hdov hden, rfl, ?_⟩
    rw [one_div_one_div]
    have h0 : 1 / fv - (1 / dov + (1 / fv - 1 / dov)) = 0 := by ring
    rw [h0, abs_zero]
    norm_num
  · simp [providedCount, List.countP_cons, List.countP_nil] at h2

/-- Witness for C3 at f = 10, do = 30, di missing (di solves to 15). -/
theorem c3_witness :
    providedCount (some 10) (some 30) none = 2 ∧
    providedNonzero (some (10:ℝ)) ∧ providedNonzero (some (30:ℝ)) ∧
    providedNonzero none ∧ lensDenom (some 10) (some 30) none ≠ 0 ∧
    (∃ rec fv dov dv, calculate_lens (some 10) (some 30) none = Except.ok rec ∧
      rec.animationData = some (Animation.lens fv dov dv) ∧
      |1 / fv - (1 / dov + 1 / dv)| ≤ 1 / 1000000) := by
  have h2 : providedCount (some 10) (some 30) none = 2 := rfl
  have hf : providedNonzero (some (10:ℝ)) := by
    intro v hv; cases hv; norm_num
  have hdo : providedNonzero (some (30:ℝ)) := by
    intro v hv; cases hv; norm_num
  have hdi : providedNonzero (none : Option ℝ) := by
    intro v hv; exact absurd hv (by simp)
  have hden : lensDenom (some 10) (some 30) none ≠ 0 := by
    show (1:ℝ) / 10 - 1 / 30 ≠ 0
    norm_num
  exact ⟨h2, hf, hdo, hdi, hden,
    c3_thin_lens_identity (some 10) (some 30) none h2 hf hdo hdi hden⟩

/-- Claim C4: with 0, 1 or 3 values provided, calculate_lens returns the
insufficient-data record without a fault: detected Lens Problem, the single
error step line, and the insufficient-data answer. -/
theorem c4_lens_insufficient_data (f d_o di : Option ℝ)
    (h : providedCount f d_o di = 0 ∨ providedCount f d_o di = 1 ∨
         providedCount f d_o di = 3) :
    calculate_lens f d_o di = Except.ok
      { detected := "Lens Problem",
        given := Given.lensTriple (dispOpt f) (dispOpt d_o) (dispOpt di),
        formula := Formula.thinLensBare,
        steps := [Step.errorProvideTwo],
        answer := Answer.insufficient,
        animationData := none } := by
  have hne : providedCount f d_o di ≠ 2 := by
    rcases h with h | h | h <;> omega
  unfold calculate_lens
  rw [if_pos hne]

/-- Witness for C4 at f = 10 with do and di missing. -/
theorem c4_witness :
    (providedCount (some 10) none none = 0 ∨ providedCount (some 10) none none = 1 ∨
     providedCount (some 10) none none = 3) ∧
    calculate_lens (some 10) none none = Except.ok
      { detected := "Lens Problem",
        given := Given.lensTriple (dispOpt (some 10)) (dispOpt none) (dispOpt none),
        formula := Formula.thinLensBare,
        steps := [Step.errorProvideTwo],
        answer := Answer.insufficient,
        animationData := none } := by
  have h : providedCount (some (10:ℝ)) none none = 0 ∨
      providedCount (some (10:ℝ)) none none = 1 ∨
      providedCount (some (10:ℝ)) none none = 3 := Or.inr (Or.inl rfl)
  exact ⟨h, c4_lens_insufficient_data (some 10) none none h⟩

/-- Claim C7: with exactly two non-zero values provided and the branch
denominator equal to zero, calculate_lens raises the division fault instead
of returning a record. -/
theorem c7_lens_zero_denominator_fault (f d_o di : Option ℝ)
    (h2 : providedCount f d_o di = 2)
    (hf : providedNonzero f) (hdo : providedNonzero d_o) (hdi : providedNonzero di)
    (hden : lensDenom f d_o di = 0) :
    calculate_lens f d_o di = Except.error "float division by zero" := by
  rcases f with _ | fv <;> rcases d_o with _ | dov <;> rcases di with _ | dv
  · simp [providedCount, List.countP_cons, List.countP_nil] at h2
  · simp [providedCount, List.countP_cons, List.countP_nil] at h2
  · simp [providedCount, List.countP_cons, List.countP_nil] at h2
  · have hdov : dov ≠ 0 := hdo dov rfl
    have hdv : dv ≠ 0 := hdi dv rfl
    rw [show lensDenom none (some dov) (some dv) = 1 / dov + 1 / dv from rfl] at hden
    unfold calculate_lens
    rw [if_neg (show ¬providedCount none (some dov) (some dv) ≠ 2 from fun h => h rfl)]
    simp only [pyDiv_ok 1 hdov, pyDiv_ok 1 hdv, Except.bind, pyDiv_err 1 hden]
  · simp [providedCount, List.countP_cons, List.countP_nil] at h2
  · have hfv : fv ≠ 0 := hf fv rfl
    have hdv : dv ≠ 0 := hdi dv rfl
    rw [show lensDenom (some fv) none (some dv) = 1 / fv - 1 / dv from rfl] at hden
    unfold calculate_lens
    rw [if_neg (show ¬providedCount (some fv) none (some dv) ≠ 2 from fun h => h rfl)]
    simp only [pyDiv_ok 1 hfv, pyDiv_ok 1 hdv, Except.bind, pyDiv_err 1 hden]
  · have hfv : fv ≠ 0 := hf fv rfl
    have hdov : dov ≠ 0 := hdo dov rfl
    rw [show lensDenom (some fv) (some dov) none = 1 / fv - 1 / dov from rfl] at hden
    unfold calculate_lens
    rw [if_neg (show ¬providedCount (some fv) (some dov) none ≠ 2 from fun h => h rfl)]
    simp only [pyDiv_ok 1 hfv, pyDiv_ok 1 hdov, Except.bind, pyDiv_err 1 hden]
  · simp [providedCount, List.countP_cons, List.countP_nil] at h2

/-- Witness for C7 at f = 10, do = 10, di missing (object at focal point). -/
theorem c7_witness :
    providedCount (some 10) (some 10) none = 2 ∧
    providedNonzero (some (10:ℝ)) ∧ providedNonzero none ∧
    lensDenom (some 10) (some 10) none = 0 ∧
    calculate_lens (some 10) (some 10) none = Except.error "float division by zero" := by
  have h2 : providedCount (some 10) (some 10) none = 2 := rfl
  have hf : providedNonzero (some (10:ℝ)) := by
    intro v hv; cases hv; norm_num
  have hdi : providedNonzero (none : Option ℝ) := by
    intro v hv; exact absurd hv (by simp)
  have hden : lensDenom (some 10) (some 10) none = 0 := by
    show (1:ℝ) / 10 - 1 / 10 = 0
    norm_num
  exact ⟨h2, hf, hdi, hden,
    c7_lens_zero_denominator_fault (some 10) (some 10) none h2 hf hf hdi hden⟩

/-- Counterexample for C8: on the successful call f = 10, do = 30 the solver
computes di = 15, yet the Given field still shows the placeholder for di
rather than the solved value, refuting the claim that the solved value is
included in place of the missing variable. -/
theorem c8_counterexample :
    ∃ rec, calculate_lens (some 10) (some 30) none = Except.ok rec ∧
      rec.answer = Answer.lensSolved "di" 15 ∧
      rec.given = Given.lensTriple (some 10) (some 30) none ∧
      rec.given ≠ Given.lensTriple (some 10) (some 30) (some 15) := by
  have h15 : 1 / ((1:ℝ) / 10 - 1 / 30) = 15 := by norm_num
  have h := calculate_lens_di 10 30 (by norm_num) (by norm_num) (by norm_num)
  rw [h15] at h
  exact ⟨_, h, rfl, rfl, by simp⟩

/-- Claim C8 as amended: on every successful calculate_lens call the Given
field shows the two values provided on input and the placeholder for the
variable that was missing on input (the solved value appears in the answer,
steps and animation payload but is not substituted into Given), and display
goes through Python truthiness, so a parameter provided with value 0 is also
shown as the placeholder, as in the insufficient-data call with only f = 0. -/
theorem c8_amended_given_display (f d_o di : Option ℝ)
    (h2 : providedCount f d_o di = 2)
    (hf : providedNonzero f) (hdo : providedNonzero d_o) (hdi : providedNonzero di)
    (hden : lensDenom f d_o di ≠ 0) :
    (∃ rec, calculate_lens f d_o di = Except.ok rec ∧
      rec.given = Given.lensTriple f d_o di) ∧
    (∃ rec0, calculate_lens (some 0) none none = Except.ok rec0 ∧
      rec0.given = Given.lensTriple none none none) := by
  constructor
  · rcases f with _ | fv <;> rcases d_o with _ | dov <;> rcases di with _ | dv
    · simp [providedCount, List.countP_cons, List.countP_nil] at h2
    · simp [providedCount, List.countP_cons, List.countP_nil] at h2
    · simp [providedCount, List.countP_cons, List.countP_nil] at h2
    · have hdov : dov ≠ 0 := hdo dov rfl
      have hdv : dv ≠ 0 := hdi dv rfl
      rw [show lensDenom none (some dov) (some dv) = 1 / dov + 1 / dv from rfl] at hden
      exact ⟨_, calculate_lens_f dov dv hdov hdv hden, rfl⟩
    · simp [providedCount, List.countP_cons, List.countP_nil] at h2
    · have hfv : fv ≠ 0 := hf fv rfl
      have hdv : dv ≠ 0 := hdi dv rfl
      rw [show lensDenom (some fv) none (some dv) = 1 / fv - 1 / dv from rfl] at hden
      exact ⟨_, calculate_lens_do fv dv hfv hdv hden, rfl⟩
    · have hfv : fv ≠ 0 := hf fv rfl
      have hdov : dov ≠ 0 := hdo dov rfl
      rw [show lensDenom (some fv) (some dov) none = 1 / fv - 1 / dov from rfl] at hden
      exact ⟨_, calculate_lens_di fv dov hfv hdov hden, rfl⟩
    · simp [providedCount, List.countP_cons, List.countP_nil] at h2
  · have h : calculate_lens (some 0) none none = Except.ok
        { detected := "Lens Problem",
          given := Given.lensTriple (dispOpt (some 0)) (dispOpt none) (dispOpt none),
          formula := Formula.thinLensBare,
          steps := [Step.errorProvideTwo],
          answer := Answer.insufficient,
          animationData := none } := by
      unfold calculate_lens
      rw [if_pos (show providedCount (some 0) none none ≠ 2 by
        simp [providedCount, List.countP_cons, List.countP_nil])]
    refine ⟨_, h, ?_⟩
    show Given.lensTriple (dispOpt (some 0)) (dispOpt none) (dispOpt none) =
      Given.lensTriple none none none
    rw [dispOpt_some_zero, dispOpt_none]

/-- Witness for the amended C8 at f = 10, do = 30, di missing. -/
theorem c8_amended_witness :
    providedCount (some 10) (some 30) none = 2 ∧
    providedNonzero (some (10:ℝ)) ∧ providedNonzero (some (30:ℝ)) ∧
    providedNonzero none ∧ lensDenom (some 10) (some 30) none ≠ 0 ∧
    ((∃ rec, calculate_lens (some 10) (some 30) none = Except.ok rec ∧
       rec.given = Given.lensTriple (some 10) (some 30) none) ∧
     (∃ rec0, calculate_lens (some 0) none none = Except.ok rec0 ∧
       rec0.given = Given.lensTriple none none none)) := by
  have h2 : providedCount (some 10) (some 30) none = 2 := rfl
  have hf : providedNonzero (some (10:ℝ)) := by
    intro v hv; cases hv; norm_num
  have hdo : providedNonzero (some (30:ℝ)) := by
    intro v hv; cases hv; norm_num
  have hdi : providedNonzero (none : Option ℝ) := by
    intro v hv; exact absurd hv (by simp)
  have hden : lensDenom (some 10) (some 30) none ≠ 0 := by
    show (1:ℝ) / 10 - 1 / 30 ≠ 0
    norm_num
  exact ⟨h2, hf, hdo, hdi, hden,
    c8_amended_given_display (some 10) (some 30) none h2 hf hdo hdi hden⟩

/-- The response of the snell arm of the calculate route: the answer text,
the steps split on newlines, the extracted exact value (a number, or the
answer passed through), and the animation payload (defaulting to absent). -/
structure SnellModeResponse where
  result : Answer
  calculation_steps : List Step
  exact_value : ℝ ⊕ Answer
  animation_data : Option Animation

/-- The exact_value extraction of the snell arm of the calculate route.  The
containment test for the theta2 symbol in the answer string holds exactly
for the normal-refraction answer template, the only template containing
that symbol.  On it, the regex character class admits digits and dots but
no sign, so the first match in the rendered answer is the digit run of the
6-decimal value with any leading minus sign excluded; the parsed float is
therefore the absolute value of the rounded theta2.  Every other answer is
passed through unchanged. -/
noncomputable def snell_exact_value (a : Answer) : ℝ ⊕ Answer :=
  match a with
  | Answer.theta2Deg t2 => Sum.inl |roundTo6 t2|
  | other => Sum.inr other

/-- The snell arm of the calculate route of src/app.py, taken after JSON
decoding and the defaulting of absent numeric fields. -/
noncomputable def calculate_snell_mode (n1 n2 theta1 : ℝ) :
    Except String SnellModeResponse :=
  Except.bind (calculate_snell n1 n2 theta1) fun r =>
    Except.ok
      { result := r.answer,
        calculation_steps := r.steps,
        exact_value := snell_exact_value r.answer,
        animation_data := r.animationData }

/-- A rendered angle strictly below -1 rounds to a negative value. -/
lemma roundTo6_neg_of_lt {x : ℝ} (h : x < -1) : roundTo6 x < 0 := by
  unfold roundTo6
  have habs := abs_sub_round (x * 1000000)
  rw [abs_le] at habs
  have hr : (round (x * 1000000) : ℝ) ≤ x * 1000000 + 1 / 2 := by
    linarith [habs.1]
  have hlt : x * 1000000 + 1 / 2 < 0 := by nlinarith
  exact div_neg_of_neg_of_pos (lt_of_le_of_lt hr hlt) (by norm_num)

/-- The refraction angle for the inputs of the C9 counterexample is below
-15 degrees. -/
lemma theta2_counterexample_bound : degrees (Real.arcsin (-(1/3) : ℝ)) < -15 := by
  have h0 : (0:ℝ) < Real.arcsin (1/3) := Real.arcsin_pos.mpr (by norm_num)
  have hs : Real.sin (Real.arcsin (1/3 : ℝ)) = 1/3 :=
    Real.sin_arcsin (by norm_num) (by norm_num)
  have ha : (1:ℝ)/3 < Real.arcsin (1/3) := by
    have := Real.sin_lt h0
    rw [hs] at this
    exact this
  have hpi : (0:ℝ) < Real.pi := Real.pi_pos
  have hpi4 : Real.pi ≤ 4 := Real.pi_le_four
  unfold degrees
  rw [Real.arcsin_neg, div_lt_iff₀ hpi]
  nlinarith

/-- Counterexample for C9: in snell mode with n1 = 1, n2 = 3/2,
theta1 = -30, the computation yields a normal-refraction record with a
negative theta2 (about -19.47 degrees), but exact_value is the absolute
value of the rounded theta2 - the sign-less character class drops the
minus - so it differs from theta2 rounded to 6 decimals including its
sign. -/
theorem c9_counterexample :
    ∃ resp, calculate_snell_mode 1 (3/2) (-30) = Except.ok resp ∧
      resp.result = Answer.theta2Deg (degrees (Real.arcsin (-(1/3)))) ∧
      resp.exact_value = Sum.inl |roundTo6 (degrees (Real.arcsin (-(1/3))))| ∧
      roundTo6 (degrees (Real.arcsin (-(1/3)))) < 0 ∧
      |roundTo6 (degrees (Real.arcsin (-(1/3))))| ≠
        roundTo6 (degrees (Real.arcsin (-(1/3)))) := by
  have hrad : radians (-30) = -(Real.pi / 6) := by
    unfold radians; ring
  have hsin : Real.sin (radians (-30)) = -(1/2) := by
    rw [hrad, Real.sin_neg, Real.sin_pi_div_six]
  have hs2 : (1:ℝ) / (3/2) * Real.sin (radians (-30)) = -(1/3) := by
    rw [hsin]; norm_num
  have hle : |(1:ℝ) / (3/2) * Real.sin (radians (-30))| ≤ 1 := by
    rw [hs2, abs_le]
    constructor <;> norm_num
  have hrec := calculate_snell_refraction 1 (3/2) (-30) (by norm_num) hle
  rw [hs2] at hrec
  have hneg : roundTo6 (degrees (Real.arcsin (-(1/3) : ℝ))) < 0 :=
    roundTo6_neg_of_lt (by linarith [theta2_counterexample_bound])
  unfold calculate_snell_mode
  rw [hrec]
  refine ⟨_, rfl, rfl, rfl, hneg, ?_⟩
  intro heq
  have h0 := abs_nonneg (roundTo6 (degrees (Real.arcsin (-(1/3) : ℝ))))
  rw [heq] at h0
  linarith

/-- Claim C9 as amended: for snell-mode requests whose computation yields a
normal-refraction record, exact_value is the absolute value of theta2
rounded to 6 decimals - the sign-less character class drops any minus sign,
so the sign of theta2 is not preserved; when the computation yields a TIR
record, exact_value is the answer passed through unchanged. -/
theorem c9_amended_exact_value (n1 n2 theta1 : ℝ) (hn1 : n1 ≠ 0) (hn2 : n2 ≠ 0) :
    (|n1 / n2 * Real.sin (radians theta1)| ≤ 1 →
      ∃ resp, calculate_snell_mode n1 n2 theta1 = Except.ok resp ∧
        resp.exact_value = Sum.inl |roundTo6 (degrees (Real.arcsin
          (n1 / n2 * Real.sin (radians theta1))))|) ∧
    (1 < |n1 / n2 * Real.sin (radians theta1)| →
      ∃ resp, calculate_snell_mode n1 n2 theta1 = Except.ok resp ∧
        resp.exact_value = Sum.inr (Answer.tir (degrees (Real.arcsin (n2 / n1))))) := by
  constructor
  · intro hle
    have hrec := calculate_snell_refraction n1 n2 theta1 hn2 hle
    unfold calculate_snell_mode
    rw [hrec]
    exact ⟨_, rfl, rfl⟩
  · intro htir
    have hrec := calculate_snell_tir n1 n2 theta1 hn1 hn2 htir
    unfold calculate_snell_mode
    rw [hrec]
    exact ⟨_, rfl, rfl⟩

/-- Witness for the amended C9 at n1 = 1, n2 = 2, theta1 = 0. -/
theorem c9_amended_witness :
    ((1:ℝ) ≠ 0) ∧ ((2:ℝ) ≠ 0) ∧ |(1:ℝ) / 2 * Real.sin (radians 0)| ≤ 1 ∧
    (∃ resp, calculate_snell_mode 1 2 0 = Except.ok resp ∧
      resp.exact_value = Sum.inl |roundTo6 (degrees (Real.arcsin
        ((1:ℝ) / 2 * Real.sin (radians 0))))|) := by
  have h1 : (1:ℝ) ≠ 0 := one_ne_zero
  have h2 : (2:ℝ) ≠ 0 := two_ne_zero
  have h3 : |(1:ℝ) / 2 * Real.sin (radians 0)| ≤ 1 := by
    simp [radians]
  exact ⟨h1, h2, h3, (c9_amended_exact_value 1 2 0 h1 h2).1 h3⟩

/-- Boolean prefix test on character lists. -/
def startsWith : List Char → List Char → Bool
  | [], _ => true
  | _ :: _, [] => false
  | a :: as, b :: bs => a == b && startsWith as bs

/-- Python substring containment (needle in haystack) on character lists. -/
def containsSub (needle : List Char) : List Char → Bool
  | [] => startsWith needle []
  | c :: rest => startsWith needle (c :: rest) || containsSub needle rest

/-- True when any of the words occurs in the text, modelling the generator
expressions any(word in problem_text for word in keywords). -/
def containsAny (t : List Char) (ws : List (List Char)) : Bool :=
  ws.any fun w => containsSub w t

/-- The regex whitespace class (ASCII range). -/
def isPySpace (c : Char) : Bool :=
  c == ' ' || c == '\t' || c == '\n' || c == '\r' || c == '\x0b' || c == '\x0c'

/-- ASCII decimal digit, modelling the regex digit class on these inputs. -/
def isDigitCh (c : Char) : Bool := '0' ≤ c && c ≤ '9'

/-- The natural number denoted by a digit run. -/
def digitsToNat (ds : List Char) : ℕ :=
  ds.foldl (fun a c => 10 * a + (c.toNat - 48)) 0

/-- The rational value of an integer digit run with an optional fraction
digit run, modelling float() applied to the matched text. -/
def parseDecimal (intDs fracDs : List Char) : ℚ :=
  (digitsToNat intDs : ℚ) + (digitsToNat fracDs : ℚ) / 10 ^ fracDs.length

/-- If p is a prefix of s, the remainder of s after it, else none. -/
def dropStart : List Char → List Char → Option (List Char)
  | [], s => some s
  | _ :: _, [] => none
  | a :: as, b :: bs => if a == b then dropStart as bs else none

/-- Match, at the head of s, one alias of the variable name followed by
optional whitespace, an equals sign or a colon, optional whitespace, and a
greedy decimal number of the form digits, optional dot, optional trailing
digits.  Returns the matched number group as its digit runs (integer
digits, fraction digits), the text that float() is then applied to. -/
def matchVarAt (nm : List Char) (s : List Char) : Option (List Char × List Char) :=
  match dropStart nm s with
  | none => none
  | some r1 =>
    match r1.dropWhile isPySpace with
    | [] => none
    | c :: r3 =>
      if c == '=' || c == ':' then
        let r4 := r3.dropWhile isPySpace
        let intDs := r4.takeWhile isDigitCh
        if intDs.isEmpty then none
        else
          match r4.dropWhile isDigitCh with
          | '.' :: r6 => some (intDs, r6.takeWhile isDigitCh)
          | _ => some (intDs, [])
      else none

/-- Try each alternative of the alias group in order at the head of s,
modelling regex alternation with backtracking. -/
def matchAliasesAt (aliases : List (List Char)) (s : List Char) :
    Option (List Char × List Char) :=
  match aliases with
  | [] => none
  | a :: rest =>
    match matchVarAt a s with
    | some v => some v
    | none => matchAliasesAt rest s

/-- Scan left to right for the first position at which the variable pattern
matches, modelling re.search. -/
def searchVar (aliases : List (List Char)) : List Char → Option (List Char × List Char)
  | [] => none
  | c :: rest =>
    match matchAliasesAt aliases (c :: rest) with
    | some v => some v
    | none => searchVar aliases rest

/-- The partial parameter set extracted from the lower-cased problem text. -/
structure Params where
  n1 : Option ℚ
  n2 : Option ℚ
  theta1 : Option ℚ
  f : Option ℚ
  d_o : Option ℚ
  di : Option ℚ
deriving DecidableEq

def n1Pattern : List (List Char) := ["n1".toList]

def n2Pattern : List (List Char) := ["n2".toList]

def theta1Pattern : List (List Char) := ["theta1".toList, "θ1".toList, "angle".toList]

def fPattern : List (List Char) := ["f".toList]

def doPattern : List (List Char) := ["do".toList]

def diPattern : List (List Char) := ["di".toList]

/-- The regex parameter extraction of the analyze route (lines 20-38 of
src/app.py), one independent first-match search per variable. -/
def extractParams (t : List Char) : Params :=
  { n1 := (searchVar n1Pattern t).map fun p => parseDecimal p.1 p.2,
    n2 := (searchVar n2Pattern t).map fun p => parseDecimal p.1 p.2,
    theta1 := (searchVar theta1Pattern t).map fun p => parseDecimal p.1 p.2,
    f := (searchVar fPattern t).map fun p => parseDecimal p.1 p.2,
    d_o := (searchVar doPattern t).map fun p => parseDecimal p.1 p.2,
    di := (searchVar diPattern t).map fun p => parseDecimal p.1 p.2 }

def refractionKeywords : List (List Char) :=
  ["refract".toList, "snell".toList, "angle".toList, "n1".toList, "n2".toList]

def lensKeywords : List (List Char) :=
  ["lens".toList, "focal".toList, "object".toList, "image".toList]

/-- The fixed record returned when no keyword family matches. -/
def unrecognizedRecord : SolutionRecord :=
  { detected := "Optical Problem",
    given := Given.text "Could not identify specific problem type",
    formula := Formula.guidance,
    steps := [Step.tryRephrase],
    answer := Answer.unrecognized,
    animationData := none }

/-- The analyze route of src/app.py after JSON decoding: lower-case the
text, extract parameters, then classify by ordered keyword checks -
refraction first with defaults 1.0, 1.5 and 30.0, then lens passing the
optional values through, else the unrecognized record. -/
noncomputable def analyze_problem (text : List Char) : Except String SolutionRecord :=
  let problem_text := text.map Char.toLower
  let params := extractParams problem_text
  if containsAny problem_text refractionKeywords then
    calculate_snell ((params.n1.getD 1 : ℚ) : ℝ) ((params.n2.getD (3/2) : ℚ) : ℝ)
      ((params.theta1.getD 30 : ℚ) : ℝ)
  else if containsAny problem_text lensKeywords then
    calculate_lens (params.f.map fun q => (q : ℝ)) (params.d_o.map fun q => (q : ℝ))
      (params.di.map fun q => (q : ℝ))
  else
    Except.ok unrecognizedRecord

/-- Claim C5: any text whose lower-casing contains a refraction keyword is
dispatched to the Snell solver with defaults 1.0, 1.5 and 30.0 substituted
for missing parameters; the check precedes the lens check, so lens keywords
in the same text are ignored. -/
theorem c5_classifier_refraction (text : List Char)
    (h : containsAny (text.map Char.toLower) refractionKeywords = true) :
    analyze_problem text =
      calculate_snell
        (((extractParams (text.map Char.toLower)).n1.getD 1 : ℚ) : ℝ)
        (((extractParams (text.map Char.toLower)).n2.getD (3/2) : ℚ) : ℝ)
        (((extractParams (text.map Char.toLower)).theta1.getD 30 : ℚ) : ℝ) := by
  unfold analyze_problem
  rw [if_pos h]

/-- Witness for C5 on a text containing both a refraction and a lens
keyword: the refraction branch wins. -/
theorem c5_witness :
    containsAny (("refract lens".toList).map Char.toLower) refractionKeywords = true ∧
    containsAny (("refract lens".toList).map Char.toLower) lensKeywords = true ∧
    analyze_problem ("refract lens".toList) =
      calculate_snell
        (((extractParams (("refract lens".toList).map Char.toLower)).n1.getD 1 : ℚ) : ℝ)
        (((extractParams (("refract lens".toList).map Char.toLower)).n2.getD (3/2) : ℚ) : ℝ)
        (((extractParams (("refract lens".toList).map Char.toLower)).theta1.getD 30 : ℚ) : ℝ) :=
  ⟨by decide, by decide, c5_classifier_refraction ("refract lens".toList) (by decide)⟩

lemma searchVar_some_first (al : List (List Char)) (s : List Char)
    (v : List Char × List Char)
    (h : searchVar al s = some v) :
    ∃ i, matchAliasesAt al (List.drop i s) = some v ∧
      ∀ j, j < i → matchAliasesAt al (List.drop j s) = none := by
  induction s with
  | nil => simp [searchVar] at h
  | cons c rest ih =>
    rw [searchVar] at h
    cases hm : matchAliasesAt al (c :: rest) with
    | some w =>
      rw [hm] at h
      refine ⟨0, ?_, ?_⟩
      · rw [List.drop_zero, hm]
        exact h
      · intro j hj
        exact absurd hj (Nat.not_lt_zero j)
    | none =>
      rw [hm] at h
      obtain ⟨i, hi, hlt⟩ := ih h
      refine ⟨i + 1, ?_, ?_⟩
      · rw [List.drop_succ_cons]
        exact hi
      · intro j hj
        cases j with
        | zero =>
          rw [List.drop_zero]
          exact hm
        | succ j' =>
          rw [List.drop_succ_cons]
          exact hlt j' (Nat.lt_of_succ_lt_succ hj)

lemma searchVar_none_all (al : List (List Char)) (s : List Char)
    (h : searchVar al s = none) :
    ∀ i, i < s.length → matchAliasesAt al (List.drop i s) = none := by
  induction s with
  | nil =>
    intro i hi
    simp at hi
  | cons c rest ih =>
    rw [searchVar] at h
    cases hm : matchAliasesAt al (c :: rest) with
    | some w =>
      rw [hm] at h
      exact absurd h (by simp)
    | none =>
      rw [hm] at h
      intro i hi
      cases i with
      | zero =>
        rw [List.drop_zero]
        exact hm
      | succ i' =>
        rw [List.drop_succ_cons]
        exact ih h i' (by simpa using hi)

/-- Claim C6: for each recognized variable the extractor returns the parsed
number of the first position where the name-equals-number pattern matches
and returns none exactly when no position matches; on the example text the
extraction yields n1 = 1, n2 = 1.5, theta1 = 45 (via the angle alias) and
the text classifies as refraction. -/
theorem c6_extractor_first_match :
    (∀ (al : List (List Char)) (s : List Char) (v : List Char × List Char),
       searchVar al s = some v →
       ∃ i, matchAliasesAt al (List.drop i s) = some v ∧
         ∀ j, j < i → matchAliasesAt al (List.drop j s) = none) ∧
    (∀ (al : List (List Char)) (s : List Char),
       searchVar al s = none →
       ∀ i, i < s.length → matchAliasesAt al (List.drop i s) = none) ∧
    extractParams ("n1=1 n2=1.5 angle=45".toList) =
      { n1 := some 1, n2 := some (3/2), theta1 := some 45,
        f := none, d_o := none, di := none } ∧
    containsAny ("n1=1 n2=1.5 angle=45".toList) refractionKeywords = true ∧
    analyze_problem ("n1=1 n2=1.5 angle=45".toList) = calculate_snell 1 (3/2) 45 := by
  have h1 : searchVar n1Pattern ("n1=1 n2=1.5 angle=45".toList) =
      some (['1'], []) := by decide
  have h2 : searchVar n2Pattern ("n1=1 n2=1.5 angle=45".toList) =
      some (['1'], ['5']) := by decide
  have h3 : searchVar theta1Pattern ("n1=1 n2=1.5 angle=45".toList) =
      some (['4', '5'], []) := by decide
  have h4 : searchVar fPattern ("n1=1 n2=1.5 angle=45".toList) = none := by decide
  have h5 : searchVar doPattern ("n1=1 n2=1.5 angle=45".toList) = none := by decide
  have h6 : searchVar diPattern ("n1=1 n2=1.5 angle=45".toList) = none := by decide
  have p1 : parseDecimal ['1'] [] = 1 := by
    have d1 : digitsToNat ['1'] = 1 := by decide
    unfold parseDecimal
    rw [d1, show digitsToNat [] = 0 from rfl]
    norm_num
  have p2 : parseDecimal ['1'] ['5'] = 3/2 := by
    have d1 : digitsToNat ['1'] = 1 := by decide
    have d5 : digitsToNat ['5'] = 5 := by decide
    unfold parseDecimal
    rw [d1, d5]
    norm_num
  have p3 : parseDecimal ['4', '5'] [] = 45 := by
    have d45 : digitsToNat ['4', '5'] = 45 := by decide
    unfold parseDecimal
    rw [d45, show digitsToNat [] = 0 from rfl]
    norm_num
  have hex : extractParams ("n1=1 n2=1.5 angle=45".toList) =
      { n1 := some 1, n2 := some (3/2), theta1 := some 45,
        f := none, d_o := none, di := none } := by
    unfold extractParams
    rw [h1, h2, h3, h4, h5, h6]
    simp only [Option.map_some', Option.map_none']
    rw [p1, p2, p3]
  refine ⟨searchVar_some_first, searchVar_none_all, hex, by decide, ?_⟩
  have hlow : ("n1=1 n2=1.5 angle=45".toList).map Char.toLower =
      "n1=1 n2=1.5 angle=45".toList := by decide
  unfold analyze_problem
  rw [hlow]
  rw [if_pos (show containsAny ("n1=1 n2=1.5 angle=45".toList) refractionKeywords = true
    by decide)]
  rw [hex]
  show calculate_snell ((1 : ℚ) : ℝ) (((3/2 : ℚ)) : ℝ) ((45 : ℚ) : ℝ) = _
  have hc1 : ((1 : ℚ) : ℝ) = (1 : ℝ) := by norm_num
  have hc2 : (((3/2 : ℚ)) : ℝ) = ((3/2 : ℝ)) := by norm_num
  have hc3 : ((45 : ℚ) : ℝ) = (45 : ℝ) := by norm_num
  rw [hc1, hc2, hc3]

/-- Witness for C6: the n1 search on the example text succeeds with value 1,
so the first-match characterization applies to it. -/
theorem c6_witness :
    searchVar n1Pattern ("n1=1 n2=1.5 angle=45".toList) = some (['1'], []) ∧
    (∃ i, matchAliasesAt n1Pattern
        (List.drop i ("n1=1 n2=1.5 angle=45".toList)) = some (['1'], []) ∧
      ∀ j, j < i → matchAliasesAt n1Pattern
        (List.drop j ("n1=1 n2=1.5 angle=45".toList)) = none) :=
  ⟨by decide, c6_extractor_first_match.1 n1Pattern ("n1=1 n2=1.5 angle=45".toList)
    (['1'], []) (by decide)⟩

end LuminaOptix
